import Mathlib

/-!
Verification of the kener-agent monitor reconciliation logic.

The Python sources are shallowly embedded:
* YAML / JSON values become the inductive type `Val`; Python dicts become
  association lists `DictM` with first-match lookup (`dget`), in-place update
  (`dset`) and `setdefault` (`dsetdefault`), mirroring Python dict semantics.
* `api.py` / `main.py` `apply_monitor_defaults` (identical dict-based code)
  becomes `apply_monitor_defaults`.
* `api.py` `resolve_group_monitors` becomes `resolve_group_monitors`;
  the divergent older copy in `main.py` becomes `resolve_group_monitors_main`.
  Paths on which the Python code would raise (`AttributeError` on a non-dict
  `type_data`, `KeyError` on the `main.py` write-back) are `Except.error`.
* `types.py` `Monitor.monitor_from_dict` becomes `monitor_from_dict`;
  field values keep their dynamic type `Val` because the Python dataclass does
  not enforce declared field types, while the enumerated fields are converted
  exactly as the code does.
* `api.py` `monitor_exists`, `get_monitor_by_tag` and `create_monitor` take
  the outcome of the single HTTP exchange they perform as a `RemoteReply`
  value (network exception, status code and optionally parsed JSON body); the
  second component of their result records whether a request was issued.
* The two reconciliation drivers are embedded as recursive functions over the
  flattened list of monitors: `cliApplyGo` (cli.py `cmd_apply`, operating on
  decoded `Monitor` records with a seen-tag set) and `mainApplyGo` (main.py
  `cmd_apply`, operating on raw dicts). Both are parametric in the remote
  collaborator: an existence oracle `ex` and a creation action `cr` threading
  a state `σ`. `cliApplyIdeal` instantiates the collaborator with an
  abstraction of the documented remote API contract (a set of existing tags;
  a successful create registers the tag); `cliApplyScripted` instantiates it
  with scripted per-call HTTP replies so that call failures can be injected.
-/

/-- A YAML / JSON value, as manipulated by the Python code. -/
inductive Val where
  | str (s : String)
  | int (n : Int)
  | bool (b : Bool)
  | null
  | list (xs : List Val)
  | dict (kvs : List (String × Val))

/-- A Python dict with string keys, as an insertion-ordered association list. -/
abbrev DictM := List (String × Val)

mutual
/-- Structural value equality, as used by Python `==` and set membership. -/
def Val.beq : Val → Val → Bool
  | .str a, .str b => a == b
  | .int a, .int b => a == b
  | .bool a, .bool b => a == b
  | .null, .null => true
  | .list as, .list bs => Val.beqList as bs
  | .dict as, .dict bs => Val.beqPairs as bs
  | _, _ => false
/-- Elementwise `Val.beq` on lists. -/
def Val.beqList : List Val → List Val → Bool
  | [], [] => true
  | a :: as, b :: bs => Val.beq a b && Val.beqList as bs
  | _, _ => false
/-- Elementwise `Val.beq` on key-value pair lists. -/
def Val.beqPairs : List (String × Val) → List (String × Val) → Bool
  | [], [] => true
  | (k, a) :: as, (k2, b) :: bs => k == k2 && Val.beq a b && Val.beqPairs as bs
  | _, _ => false
end

/-- Python truthiness: the values that test false in an `if`. -/
def isFalsy : Val → Bool
  | .str s => s == ""
  | .int n => n == 0
  | .bool b => !b
  | .null => true
  | .list xs => xs.isEmpty
  | .dict kvs => kvs.isEmpty

/-- Python `d.get(k)`: first binding of `k`, if any. -/
def dget : DictM → String → Option Val
  | [], _ => none
  | (k2, v) :: rest, k => if k = k2 then some v else dget rest k

/-- Python `d[k] = v`: replace the value of the first binding of `k`,
or append a new binding. -/
def dset : DictM → String → Val → DictM
  | [], k, v => [(k, v)]
  | (k2, v2) :: rest, k, v =>
    if k = k2 then (k2, v) :: rest else (k2, v2) :: dset rest k v

/-- Python `d.setdefault(k, v)`: insert `v` under `k` only when `k` is absent. -/
def dsetdefault (m : DictM) (k : String) (v : Val) : DictM :=
  match dget m k with
  | some _ => m
  | none => m ++ [(k, v)]

/-- The fixed defaults dict of `api.py` / `main.py` `apply_monitor_defaults`,
in source order. -/
def monitorDefaults : List (String × Val) :=
  [("cron", .str "* * * * *"),
   ("day_degraded_minimum_count", .int 1),
   ("day_down_minimum_count", .int 1),
   ("default_status", .str "NONE"),
   ("degraded_trigger", .null),
   ("down_trigger", .null),
   ("include_degraded_in_downtime", .str "NO"),
   ("status", .str "ACTIVE"),
   ("description", .str "")]

/-- `api.py` `KenerAPI.apply_monitor_defaults` (textually identical to
`main.py` `apply_monitor_defaults`): set `created_at` to the formatted current
time `now` when the key is absent, then `setdefault` every fixed default. -/
def apply_monitor_defaults (now : String) (m : DictM) : DictM :=
  let m1 := match dget m "created_at" with
    | none => dset m "created_at" (.str now)
    | some _ => m
  monitorDefaults.foldl (fun acc kv => dsetdefault acc kv.1 kv.2) m1

/-- `child.get("tag")` of a child reference, with the absent case as null. -/
def tagOf (c : DictM) : Val :=
  (dget c "tag").getD .null

/-- The child-resolution loop shared by `api.py` and `main.py`
`resolve_group_monitors`: for each child reference, skip it when its tag is
falsy, look the tag up, and on a truthy result append
`{id, tag, name, selected: true}`. A child that is not a dict makes the Python
loop raise (`AttributeError` on `child.get`), embedded as `Except.error`. -/
def resolveChildren (lookup : Val → Option DictM) : List Val → Except String (List DictM)
  | [] => .ok []
  | c :: rest =>
    match c with
    | .dict ckvs =>
      if isFalsy (tagOf ckvs) then resolveChildren lookup rest
      else
        match lookup (tagOf ckvs) with
        | some cm =>
          if cm.isEmpty then resolveChildren lookup rest
          else
            match resolveChildren lookup rest with
            | .error e => .error e
            | .ok rs =>
              .ok ([("id", (dget cm "id").getD .null),
                    ("tag", (dget cm "tag").getD .null),
                    ("name", (dget cm "name").getD .null),
                    ("selected", .bool true)] :: rs)
        | none => resolveChildren lookup rest
    | _ => .error "AttributeError: child reference is not a dict"

/-- Spec-shaped predicate for one child reference: it has a truthy tag and the
lookup returns a truthy (non-empty) monitor. Used to state what
`resolveChildren` keeps. -/
def childResolvable (lookup : Val → Option DictM) (c : DictM) : Bool :=
  !isFalsy (tagOf c) &&
    (match lookup (tagOf c) with
     | some cm => !cm.isEmpty
     | none => false)

/-- Spec-shaped entry built for one successfully resolved child reference. -/
def childEntry (lookup : Val → Option DictM) (c : DictM) : DictM :=
  match lookup (tagOf c) with
  | some cm =>
    [("id", (dget cm "id").getD .null),
     ("tag", (dget cm "tag").getD .null),
     ("name", (dget cm "name").getD .null),
     ("selected", .bool true)]
  | none => []

/-- Python `monitor.get("monitor_type") != "GROUP"` is false exactly when the
value is the string `GROUP`. -/
def isGroupMonitor (m : DictM) : Bool :=
  match dget m "monitor_type" with
  | some (.str s) => s == "GROUP"
  | _ => false

/-- `api.py` `KenerAPI.resolve_group_monitors`: non-GROUP monitors pass
through unchanged; `type_data` defaults to an empty dict; a non-list
`type_data["monitors"]` is replaced by an empty list (with a warning); the
resolved children are written back through
`monitor.setdefault("type_data", {})["monitors"] = resolved`. A non-dict
`type_data` value makes the Python code raise, embedded as `Except.error`. -/
def resolve_group_monitors (lookup : Val → Option DictM) (m : DictM) :
    Except String DictM :=
  if !isGroupMonitor m then .ok m
  else
    match (dget m "type_data").getD (.dict []) with
    | .dict td =>
      let childList := match (dget td "monitors").getD (.list []) with
        | .list xs => xs
        | _ => []
      match resolveChildren lookup childList with
      | .error e => .error e
      | .ok resolved =>
        .ok (dset m "type_data" (.dict (dset td "monitors" (.list (resolved.map .dict)))))
    | _ => .error "AttributeError: type_data is not a dict"

/-- `main.py` `resolve_group_monitors` (the older copy): same GROUP check and
child loop, but no guard against a non-list `type_data["monitors"]` (iterating
it raises), and the write-back `monitor["type_data"]["monitors"] = resolved`
raises `KeyError` when the monitor has no `type_data` key. -/
def resolve_group_monitors_main (lookup : Val → Option DictM) (m : DictM) :
    Except String DictM :=
  if !isGroupMonitor m then .ok m
  else
    match (dget m "type_data").getD (.dict []) with
    | .dict td =>
      match (dget td "monitors").getD (.list []) with
      | .list childList =>
        match resolveChildren lookup childList with
        | .error e => .error e
        | .ok resolved =>
          match dget m "type_data" with
          | some (.dict td2) =>
            .ok (dset m "type_data" (.dict (dset td2 "monitors" (.list (resolved.map .dict)))))
          | some _ => .error "TypeError: type_data is not a dict"
          | none => .error "KeyError: type_data"
      | _ => .error "TypeError: type_data monitors is not iterable as dicts"
    | _ => .error "AttributeError: type_data is not a dict"

/-- `types.py` `MonitorType`. -/
inductive MonitorType where
  | API | PING | DNS | TCP | GROUP | SSL | SQL
  deriving DecidableEq

/-- `types.py` `MonitorStatus`. -/
inductive MonitorStatus where
  | NONE | UP | DEGRADED | DOWN
  deriving DecidableEq

/-- A decoding failure of `Monitor.monitor_from_dict`: a `KeyError` on a
required key, or a `ValueError` from an enum constructor. -/
inductive DecodeErr where
  | keyError (key : String)
  | invalidEnum (field : String)
  deriving DecidableEq

/-- `MonitorType(value)`: succeeds exactly on the seven member strings. -/
def MonitorType.ofVal : Val → Except DecodeErr MonitorType
  | .str "API" => .ok .API
  | .str "PING" => .ok .PING
  | .str "DNS" => .ok .DNS
  | .str "TCP" => .ok .TCP
  | .str "GROUP" => .ok .GROUP
  | .str "SSL" => .ok .SSL
  | .str "SQL" => .ok .SQL
  | _ => .error (.invalidEnum "monitor_type")

/-- `MonitorStatus(value)`: succeeds exactly on the four member strings.
`field` names the field being decoded, for the error value. -/
def MonitorStatus.ofVal (field : String) : Val → Except DecodeErr MonitorStatus
  | .str "NONE" => .ok .NONE
  | .str "UP" => .ok .UP
  | .str "DEGRADED" => .ok .DEGRADED
  | .str "DOWN" => .ok .DOWN
  | _ => .error (.invalidEnum field)

/-- `types.py` `Monitor`. Non-enumerated fields keep their dynamic value
because the Python dataclass does not check declared field types. -/
structure Monitor where
  id : Val
  name : Val
  description : Val
  category_name : Val
  created_at : Val
  updated_at : Val
  cron : Val
  day_degraded_minimum_count : Val
  day_down_minimum_count : Val
  image : Val
  include_degraded_in_downtime : Val
  monitor_type : MonitorType
  status : MonitorStatus
  tag : Val
  default_status : MonitorStatus
  degraded_trigger : Val
  down_trigger : Val
  type_data : Val

/-- `types.py` `Monitor.monitor_from_dict`. The required subscripts
`data["id"]`, `data["name"]`, `data["monitor_type"]` raise `KeyError` when the
key is absent, and the enum constructors raise `ValueError` on a value outside
the closed set; both are embedded as `Except.error`, in the evaluation order
of the Python constructor call. All other fields use `data.get` defaults. -/
def monitor_from_dict (data : DictM) : Except DecodeErr Monitor :=
  match dget data "id" with
  | none => .error (.keyError "id")
  | some idv =>
    match dget data "name" with
    | none => .error (.keyError "name")
    | some namev =>
      match dget data "monitor_type" with
      | none => .error (.keyError "monitor_type")
      | some mtv =>
        match MonitorType.ofVal mtv with
        | .error e => .error e
        | .ok mt =>
          match MonitorStatus.ofVal "status" ((dget data "status").getD (.str "NONE")) with
          | .error e => .error e
          | .ok st =>
            match MonitorStatus.ofVal "default_status"
                ((dget data "default_status").getD (.str "NONE")) with
            | .error e => .error e
            | .ok dst =>
              .ok { id := idv
                    name := namev
                    description := (dget data "description").getD (.str "")
                    category_name := (dget data "category_name").getD (.str "")
                    created_at := (dget data "created_at").getD (.str "")
                    updated_at := (dget data "updated_at").getD (.str "")
                    cron := (dget data "cron").getD (.str "* * * * *")
                    day_degraded_minimum_count :=
                      (dget data "day_degraded_minimum_count").getD (.int 1)
                    day_down_minimum_count :=
                      (dget data "day_down_minimum_count").getD (.int 1)
                    image := (dget data "image").getD (.str "")
                    include_degraded_in_downtime :=
                      (dget data "include_degraded_in_downtime").getD (.str "NO")
                    monitor_type := mt
                    status := st
                    tag := (dget data "tag").getD (.str "")
                    default_status := dst
                    degraded_trigger := (dget data "degraded_trigger").getD .null
                    down_trigger := (dget data "down_trigger").getD .null
                    type_data := (dget data "type_data").getD (.dict []) }

/-- `monitor.py` `validate_monitor`: `tag`, `name`, `monitor_type` must be
truthy. A `MonitorType` enum member is always truthy in Python, so the third
check never fails on a decoded `Monitor`. -/
def validate_monitor (m : Monitor) : Bool :=
  !isFalsy m.tag && !isFalsy m.name

/-- `monitor.py` `apply_monitor_defaults` (the `Monitor`-object revision):
falsy fields are replaced by the defaults. The `status` / `default_status`
branches guard on the truthiness of an enum member, which is always truthy in
Python, so they never fire; likewise the `hasattr` guards on the trigger
fields never fire on a dataclass instance. -/
def apply_monitor_defaults_mon (now : String) (m : Monitor) : Monitor :=
  let m := if isFalsy m.cron then { m with cron := .str "* * * * *" } else m
  let m := if isFalsy m.day_degraded_minimum_count then
      { m with day_degraded_minimum_count := .int 1 } else m
  let m := if isFalsy m.day_down_minimum_count then
      { m with day_down_minimum_count := .int 1 } else m
  let m := if isFalsy m.include_degraded_in_downtime then
      { m with include_degraded_in_downtime := .str "NO" } else m
  let m := if isFalsy m.description then { m with description := .str "" } else m
  let m := if isFalsy m.created_at then { m with created_at := .str now } else m
  m

/-- The observable outcome of one HTTP exchange: a network-level exception, or
a status code together with the response body (`none` when the body is not
valid JSON, `some v` for the parsed value). -/
inductive RemoteReply where
  | netFail
  | reply (status : Nat) (body : Option Val)

/-- `api.py` `KenerAPI.monitor_exists`, given the outcome `r` of the request
it would issue. First component: the returned boolean (a monitor exists only
for a 200 reply whose body is a non-empty JSON list; an empty tag, a network
error, a non-200 status, a malformed body and a non-list body all yield
`false`). Second component: whether a request was issued at all (an empty tag
returns before any request). -/
def monitor_exists (tag : String) (r : RemoteReply) : Bool × Bool :=
  if tag = "" then (false, false)
  else
    match r with
    | .netFail => (false, true)
    | .reply status body =>
      if status ≠ 200 then (false, true)
      else
        match body with
        | some (.list ms) => (!ms.isEmpty, true)
        | _ => (false, true)

/-- `api.py` `KenerAPI.get_monitor_by_tag`, given the outcome `r` of the
request it would issue. First component: the first element of a 200 JSON-list
reply, `none` on every failure. Second component: whether a request was
issued (an empty tag returns before any request). -/
def get_monitor_by_tag (tag : String) (r : RemoteReply) : Option Val × Bool :=
  if tag = "" then (none, false)
  else
    match r with
    | .netFail => (none, true)
    | .reply status body =>
      if status ≠ 200 then (none, true)
      else
        match body with
        | some (.list (mv :: _)) => (some mv, true)
        | _ => (none, true)

/-- `api.py` `KenerAPI.create_monitor`: the creation is logged as successful
exactly on a 201 reply; a network failure or any other status is logged and
the function returns normally. -/
def create_monitor_outcome (r : RemoteReply) : Bool :=
  match r with
  | .netFail => false
  | .reply status _ => status == 201

/-- One entry of a directory listing, as observed by `folder.iterdir()`. -/
structure DirEntry where
  name : String
  isFile : Bool

/-- The three shapes a folder path can have for the loader. -/
inductive FolderState where
  | missing
  | notDir
  | dir (entries : List DirEntry)

/-- The part of the filename after `NN-`: Python regex `.*\.yml$` semantics.
`$` also matches just before one trailing newline, and `.` does not match a
newline. -/
def ymlSuffixMatch (rest : List Char) : Bool :=
  let r := if rest.getLast? == some '\n' then rest.dropLast else rest
  if r.length < 4 then false
  else (r.drop (r.length - 4) == [ '.', 'y', 'm', 'l' ]) &&
    (r.take (r.length - 4)).all (fun c => !(c == '\n'))

/-- Python `re.match` of the pattern from `load_yaml_files_from_folder`
(two ASCII digits, a hyphen, then `.*\.yml$`) against a filename. -/
def isYmlMatch (name : String) : Bool :=
  match name.data with
  | c1 :: c2 :: '-' :: rest => c1.isDigit && c2.isDigit && ymlSuffixMatch rest
  | _ => false

/-- An `iterdir` entry kept by the loader: a regular file matching the
pattern. -/
def dirEntryGood (e : DirEntry) : Bool :=
  e.isFile && isYmlMatch e.name

/-- `api.py` `KenerAPI.load_yaml_files_from_folder` / `monitor.py`
`load_yaml_files_from_folder`: `ValueError` when the path does not exist or
is not a directory, otherwise the matching regular files sorted by name. An
empty match set is an ordinary (warned) empty result. -/
def load_yaml_files_from_folder : FolderState → Except String (List String)
  | .missing => .error "does not exist"
  | .notDir => .error "is not a valid folder"
  | .dir es =>
    .ok (((es.filter dirEntryGood).map DirEntry.name).mergeSort
      (fun a b => decide (a ≤ b)))

/-- `Except` success as a boolean. -/
def exceptOk {ε α : Type} : Except ε α → Bool
  | .ok _ => true
  | .error _ => false

/-- Membership of a value in a Python set or a server tag set,
via structural equality. -/
def vContains (xs : List Val) (t : Val) : Bool :=
  xs.any (fun u => Val.beq t u)

/-- The result of one reconciliation run of cli.py `cmd_apply`:
the final collaborator state, the seen-tag set, and the created monitors
with the position each one had in the input list. -/
structure CliResult (σ : Type) where
  state : σ
  seen : List Val
  creations : List (Nat × Monitor)

/-- cli.py `cmd_apply`, per monitor in file order then in-file order
(the file structure is flattened into one list, with `i` the position of the
head): skip a falsy tag; skip a tag already seen this run; record the tag as
seen; skip an invalid monitor; ask the remote collaborator `ex` whether the
tag exists and skip if so; otherwise submit the monitor to the creation
collaborator `cr`. -/
def cliApplyGo {σ : Type} (ex : σ → Val → Bool × σ) (cr : σ → Monitor → σ) :
    σ → List Val → Nat → List Monitor → CliResult σ
  | s, seen, _, [] => ⟨s, seen, []⟩
  | s, seen, i, m :: rest =>
    if isFalsy m.tag then cliApplyGo ex cr s seen (i + 1) rest
    else if vContains seen m.tag then cliApplyGo ex cr s seen (i + 1) rest
    else
      let seen2 := m.tag :: seen
      if !validate_monitor m then cliApplyGo ex cr s seen2 (i + 1) rest
      else
        let es := ex s m.tag
        if es.1 then cliApplyGo ex cr es.2 seen2 (i + 1) rest
        else
          let s2 := cr es.2 m
          let res := cliApplyGo ex cr s2 seen2 (i + 1) rest
          ⟨res.state, res.seen, (i, m) :: res.creations⟩

/-- The remote collaborator abstracted from the documented API contract: the
server state is its set of existing tags, the existence query reports
membership. -/
def exIdeal (s : List Val) (t : Val) : Bool × List Val :=
  (vContains s t, s)

/-- The remote collaborator abstracted from the documented API contract: a
successful creation registers the tag of the submitted monitor. -/
def crIdeal (s : List Val) (m : Monitor) : List Val :=
  m.tag :: s

/-- One cli.py `cmd_apply` run against a well-behaved remote whose state `R`
is its set of existing tags. -/
def cliApplyIdeal (R : List Val) (ms : List Monitor) : CliResult (List Val) :=
  cliApplyGo exIdeal crIdeal R [] 0 ms

/-- Collaborator state for a run with scripted HTTP replies: the pending
replies for existence checks and for creations, and the record of what was
submitted and with what logged outcome. -/
structure ScriptState where
  existsReplies : List RemoteReply
  createReplies : List RemoteReply
  submitted : List Monitor
  outcomes : List Bool

/-- The string sent as the `tag` query parameter for a tag value. -/
def tagQueryString : Val → String
  | .str s => s
  | .int n => toString n
  | _ => "tag"

/-- Existence check against the next scripted reply. -/
def exScripted (s : ScriptState) (t : Val) : Bool × ScriptState :=
  ((monitor_exists (tagQueryString t) (s.existsReplies.headD .netFail)).1,
   { s with existsReplies := s.existsReplies.tail })

/-- Creation against the next scripted reply: the monitor is submitted and the
logged outcome recorded; any reply lets the run continue. -/
def crScripted (s : ScriptState) (m : Monitor) : ScriptState :=
  { s with
    createReplies := s.createReplies.tail
    submitted := s.submitted ++ [m]
    outcomes := s.outcomes ++ [create_monitor_outcome (s.createReplies.headD .netFail)] }

/-- One cli.py `cmd_apply` run in which every remote call receives the next
scripted reply. -/
def cliApplyScripted (exR crR : List RemoteReply) (ms : List Monitor) :
    CliResult ScriptState :=
  cliApplyGo exScripted crScripted ⟨exR, crR, [], []⟩ [] 0 ms

/-- main.py `cmd_apply`, per monitor over the flattened file contents: a
monitor whose truthy tag the remote reports as existing is skipped; every
other monitor (even one with a falsy tag) is passed through
`resolve_group_monitors_main`, then `apply_monitor_defaults`, and the result
is submitted to the creation collaborator `cr`. The returned list collects
the submitted payloads; an exception from group resolution aborts the run. -/
def mainApplyGo {σ : Type} (lookup : Val → Option DictM) (now : String)
    (ex : σ → Val → Bool × σ) (cr : σ → DictM → σ) :
    σ → List DictM → Except String (σ × List DictM)
  | s, [] => .ok (s, [])
  | s, m :: rest =>
    let t := (dget m "tag").getD .null
    let es := if isFalsy t then (false, s) else ex s t
    if es.1 then mainApplyGo lookup now ex cr es.2 rest
    else
      match resolve_group_monitors_main lookup m with
      | .error e => .error e
      | .ok r =>
        let p := apply_monitor_defaults now r
        match mainApplyGo lookup now ex cr (cr es.2 p) rest with
        | .error e => .error e
        | .ok (s2, ps) => .ok (s2, p :: ps)

/-- The `type_data` dict of a monitor, with both the absent case and the
non-dict case read as the empty dict. -/
def tdOf (m : DictM) : DictM :=
  match dget m "type_data" with
  | some (.dict td) => td
  | _ => []

/-- The `type_data` entry is absent or a dict (the shapes on which
`type_data.get` does not raise). -/
def tdShapeOk : Option Val → Bool
  | none => true
  | some (.dict _) => true
  | _ => false

/-- Whether an optional value is present and a list. -/
def isListVal : Option Val → Bool
  | some (.list _) => true
  | _ => false

/-- Whether the `monitor_type` entry decodes to a `MonitorType`. -/
def monitorTypeFieldOk (d : DictM) : Bool :=
  match dget d "monitor_type" with
  | some v => exceptOk (MonitorType.ofVal v)
  | none => false

/-- Whether the `status` entry (defaulted to `NONE`) decodes. -/
def statusFieldOk (d : DictM) : Bool :=
  exceptOk (MonitorStatus.ofVal "status" ((dget d "status").getD (.str "NONE")))

/-- Whether the `default_status` entry (defaulted to `NONE`) decodes. -/
def defaultStatusFieldOk (d : DictM) : Bool :=
  exceptOk (MonitorStatus.ofVal "default_status"
    ((dget d "default_status").getD (.str "NONE")))

/-- A concrete decoded monitor used by concrete runs: tag `tagS`, name
`nameS`, every optional text field empty, type `API`. Its `cron` is the empty
string, i.e. still unset in the falsy sense. -/
def mkMon (tagS nameS : String) : Monitor :=
  { id := .int 1
    name := .str nameS
    description := .str ""
    category_name := .str ""
    created_at := .str ""
    updated_at := .str ""
    cron := .str ""
    day_degraded_minimum_count := .int 1
    day_down_minimum_count := .int 1
    image := .str ""
    include_degraded_in_downtime := .str "NO"
    monitor_type := .API
    status := .NONE
    tag := .str tagS
    default_status := .NONE
    degraded_trigger := .null
    down_trigger := .null
    type_data := .dict [] }

/-- A 200 reply whose JSON body is the empty list: tag not found. -/
def replyNotFound : RemoteReply :=
  .reply 200 (some (.list []))

/-- A 201 created reply. -/
def reply201 : RemoteReply :=
  .reply 201 (some (.dict []))

/-- A 500 failure reply. -/
def reply500 : RemoteReply :=
  .reply 500 (some (.str "internal error"))

/-- A raw local definition without an `id` key. -/
def rawNoId : DictM :=
  [("name", .str "n"), ("monitor_type", .str "API"), ("tag", .str "t")]

/-- A raw local definition that decodes successfully. -/
def rawOk : DictM :=
  [("id", .int 1), ("name", .str "n"), ("monitor_type", .str "API"),
   ("tag", .str "t")]

/-- A raw non-GROUP monitor dict, as main.py `cmd_apply` processes it. -/
def rawApiMonitor : DictM :=
  [("tag", .str "t"), ("name", .str "n"), ("monitor_type", .str "API")]

/-- A raw GROUP monitor whose `type_data.monitors` is a string, not a list. -/
def rawGroupBadChildren : DictM :=
  [("tag", .str "g"), ("monitor_type", .str "GROUP"),
   ("type_data", .dict [("monitors", .str "oops")])]

/-- A raw monitor dict with an explicit `cron`. -/
def rawWithCron : DictM :=
  [("cron", .str "custom")]

/-- A lookup collaborator that resolves nothing. -/
def lookupNone : Val → Option DictM :=
  fun _ => none

/-- A unit existence collaborator that reports nothing as existing. -/
def exUnit : Unit → Val → Bool × Unit :=
  fun _ _ => (false, ())

/-- A unit creation collaborator. -/
def crUnit : Unit → DictM → Unit :=
  fun _ _ => ()

mutual
/-- Structural equality is reflexive. -/
theorem Val.beq_refl : (v : Val) → Val.beq v v = true
  | .str _ => by simp [Val.beq]
  | .int _ => by simp [Val.beq]
  | .bool _ => by simp [Val.beq]
  | .null => by simp [Val.beq]
  | .list as => by simp [Val.beq, Val.beqList_refl as]
  | .dict as => by simp [Val.beq, Val.beqPairs_refl as]
/-- Elementwise structural equality is reflexive. -/
theorem Val.beqList_refl : (xs : List Val) → Val.beqList xs xs = true
  | [] => by simp [Val.beqList]
  | a :: as => by simp [Val.beqList, Val.beq_refl a, Val.beqList_refl as]
/-- Elementwise structural equality on pair lists is reflexive. -/
theorem Val.beqPairs_refl : (xs : List (String × Val)) → Val.beqPairs xs xs = true
  | [] => by simp [Val.beqPairs]
  | (_, a) :: as => by simp [Val.beqPairs, Val.beq_refl a, Val.beqPairs_refl as]
end

/-- Lookup distributes over append, preferring the left list. -/
theorem dget_append (xs ys : DictM) (k : String) :
    dget (xs ++ ys) k =
      match dget xs k with
      | some v => some v
      | none => dget ys k := by
  induction xs with
  | nil => simp [dget]
  | cons p rest ih =>
    obtain ⟨k2, v⟩ := p
    by_cases h : k = k2 <;> simp [dget, h, ih]

/-- Setting a key makes it present with the new value. -/
theorem dget_dset_self (m : DictM) (k : String) (v : Val) :
    dget (dset m k v) k = some v := by
  induction m with
  | nil => simp [dset, dget]
  | cons p rest ih =>
    obtain ⟨k2, v2⟩ := p
    by_cases h : k = k2 <;> simp [dset, dget, h, ih]

/-- Setting a key leaves every other key unchanged. -/
theorem dget_dset_ne (m : DictM) {k k2 : String} (v : Val) (h : k2 ≠ k) :
    dget (dset m k v) k2 = dget m k2 := by
  induction m with
  | nil => simp [dset, dget, h]
  | cons p rest ih =>
    obtain ⟨k3, v3⟩ := p
    by_cases h2 : k = k3
    · subst h2
      simp [dset, dget, fun hh => h hh]
    · by_cases h3 : k2 = k3 <;> simp [dset, dget, h2, h3, ih]

/-- Lookup after `setdefault`: a present key keeps its value, the target key
receives the default when absent. -/
theorem dget_dsetdefault (m : DictM) (k k2 : String) (v : Val) :
    dget (dsetdefault m k v) k2 =
      match dget m k2 with
      | some w => some w
      | none => if k2 = k then some v else none := by
  unfold dsetdefault
  cases h : dget m k with
  | some w =>
    cases h2 : dget m k2 with
    | some w2 => simp
    | none =>
      by_cases hk : k2 = k
      · subst hk; rw [h] at h2; cases h2
      · simp [hk]
  | none =>
    rw [dget_append]
    cases h2 : dget m k2 with
    | some w2 => simp
    | none => by_cases hk : k2 = k <;> simp [dget, hk]

/-- Lookup after folding `setdefault` over a defaults list: a present key
keeps its value, an absent key receives the first default for it. -/
theorem dget_foldl_dsetdefault (ds : List (String × Val)) (m : DictM) (k : String) :
    dget (ds.foldl (fun acc kv => dsetdefault acc kv.1 kv.2) m) k =
      match dget m k with
      | some v => some v
      | none => (ds.find? (fun kv => kv.1 == k)).map Prod.snd := by
  induction ds generalizing m with
  | nil => cases h : dget m k <;> simp [h]
  | cons kv rest ih =>
    obtain ⟨k1, v1⟩ := kv
    simp only [List.foldl_cons]
    rw [ih, dget_dsetdefault]
    cases h : dget m k with
    | some v => simp [List.find?]
    | none =>
      by_cases hk : k = k1
      · subst hk; simp [List.find?]
      · have hb : (k1 == k) = false := beq_eq_false_iff_ne.mpr (fun hh => hk hh.symm)
        simp [List.find?, hk, hb]

/-- Lookup after the full defaulting pass, split into the `created_at` step
and the defaults fold. -/
theorem dget_apply_monitor_defaults (now : String) (m : DictM) (k : String) :
    dget (apply_monitor_defaults now m) k =
      match dget (match dget m "created_at" with
                  | none => dset m "created_at" (.str now)
                  | some _ => m) k with
      | some v => some v
      | none => (monitorDefaults.find? (fun kv => kv.1 == k)).map Prod.snd := by
  simp only [apply_monitor_defaults]
  exact dget_foldl_dsetdefault _ _ _

/-- C4: applying defaults leaves every explicitly present field unchanged;
each documented defaultable field that is absent receives exactly its
documented default (`cron` `* * * * *`, both day minimum counts `1`,
`default_status` `NONE`, `include_degraded_in_downtime` `NO`, `status`
`ACTIVE`, `description` empty), and `created_at` is set to the formatted
current time only when absent. -/
theorem apply_defaults_fills_only_missing_fields (now : String) (m : DictM) :
    (∀ k v, dget m k = some v → dget (apply_monitor_defaults now m) k = some v)
    ∧ (dget m "cron" = none →
       dget (apply_monitor_defaults now m) "cron" = some (.str "* * * * *"))
    ∧ (dget m "day_degraded_minimum_count" = none →
       dget (apply_monitor_defaults now m) "day_degraded_minimum_count" = some (.int 1))
    ∧ (dget m "day_down_minimum_count" = none →
       dget (apply_monitor_defaults now m) "day_down_minimum_count" = some (.int 1))
    ∧ (dget m "default_status" = none →
       dget (apply_monitor_defaults now m) "default_status" = some (.str "NONE"))
    ∧ (dget m "include_degraded_in_downtime" = none →
       dget (apply_monitor_defaults now m) "include_degraded_in_downtime" = some (.str "NO"))
    ∧ (dget m "status" = none →
       dget (apply_monitor_defaults now m) "status" = some (.str "ACTIVE"))
    ∧ (dget m "description" = none →
       dget (apply_monitor_defaults now m) "description" = some (.str ""))
    ∧ (dget m "created_at" = none →
       dget (apply_monitor_defaults now m) "created_at" = some (.str now)) := by
  have hm1 : ∀ k, k ≠ "created_at" →
      dget (match dget m "created_at" with
            | none => dset m "created_at" (.str now)
            | some _ => m) k = dget m k := by
    intro k hk
    cases h : dget m "created_at" with
    | none => exact dget_dset_ne m (.str now) hk
    | some _ => rfl
  refine ⟨?_, ?_, ?_, ?_, ?_, ?_, ?_, ?_, ?_⟩
  · intro k v hv
    rw [dget_apply_monitor_defaults]
    have hkeep : dget (match dget m "created_at" with
        | none => dset m "created_at" (.str now)
        | some _ => m) k = some v := by
      cases h : dget m "created_at" with
      | none =>
        by_cases hk : k = "created_at"
        · subst hk; rw [h] at hv; cases hv
        · rw [dget_dset_ne m _ hk]; exact hv
      | some _ => exact hv
    rw [hkeep]
  · intro h0
    rw [dget_apply_monitor_defaults, hm1 "cron" (by decide), h0]
    rfl
  · intro h0
    rw [dget_apply_monitor_defaults, hm1 "day_degraded_minimum_count" (by decide), h0]
    rfl
  · intro h0
    rw [dget_apply_monitor_defaults, hm1 "day_down_minimum_count" (by decide), h0]
    rfl
  · intro h0
    rw [dget_apply_monitor_defaults, hm1 "default_status" (by decide), h0]
    rfl
  · intro h0
    rw [dget_apply_monitor_defaults, hm1 "include_degraded_in_downtime" (by decide), h0]
    rfl
  · intro h0
    rw [dget_apply_monitor_defaults, hm1 "status" (by decide), h0]
    rfl
  · intro h0
    rw [dget_apply_monitor_defaults, hm1 "description" (by decide), h0]
    rfl
  · intro h0
    rw [dget_apply_monitor_defaults]
    have hset : dget (match dget m "created_at" with
        | none => dset m "created_at" (.str now)
        | some _ => m) "created_at" = some (.str now) := by
      rw [h0]
      exact dget_dset_self m "created_at" (.str now)
    rw [hset]

/-- C4 witness: on a monitor that only sets `cron` explicitly, defaulting
keeps the explicit `cron`, fills `status` with `ACTIVE` and stamps
`created_at`. -/
theorem apply_defaults_fills_only_missing_fields_witness :
    dget (apply_monitor_defaults "2025-01-01T00:00:00.000Z" rawWithCron) "cron"
        = some (.str "custom")
    ∧ dget (apply_monitor_defaults "2025-01-01T00:00:00.000Z" rawWithCron) "status"
        = some (.str "ACTIVE")
    ∧ dget (apply_monitor_defaults "2025-01-01T00:00:00.000Z" rawWithCron) "created_at"
        = some (.str "2025-01-01T00:00:00.000Z") := by
  have h := apply_defaults_fills_only_missing_fields "2025-01-01T00:00:00.000Z" rawWithCron
  exact ⟨h.1 "cron" (.str "custom") rfl, h.2.2.2.2.2.2.1 rfl, h.2.2.2.2.2.2.2.2 rfl⟩

/-- C5: on any list of child-reference dicts, the resolution loop returns
exactly one `{id, tag, name, selected: true}` entry per child whose tag is
truthy and whose lookup returns a truthy monitor; children without a tag or
with a failed lookup are dropped without error, and the kept entries appear
in the relative order of their references. -/
theorem resolve_children_exact (lookup : Val → Option DictM) (cs : List DictM) :
    resolveChildren lookup (cs.map Val.dict) =
      .ok ((cs.filter (childResolvable lookup)).map (childEntry lookup)) := by
  induction cs with
  | nil => rfl
  | cons c rest ih =>
    by_cases h1 : isFalsy (tagOf c)
    · simp [resolveChildren, h1, ih, childResolvable, List.filter_cons]
    · cases h2 : lookup (tagOf c) with
      | none =>
        simp [resolveChildren, h1, h2, ih, childResolvable, List.filter_cons]
      | some cm =>
        by_cases h3 : cm.isEmpty
        · simp [resolveChildren, h1, h2, h3, ih, childResolvable, List.filter_cons]
        · simp [resolveChildren, h1, h2, h3, ih, childResolvable, childEntry,
            List.filter_cons]

/-- C6: a GROUP monitor whose `type_data` is absent or a dict, and whose
`type_data.monitors` is absent or not a list, resolves without error and gets
an empty resolved list written back under `type_data.monitors`. -/
theorem resolve_group_empty_or_nonlist_children (lookup : Val → Option DictM)
    (m : DictM) (hG : isGroupMonitor m = true)
    (hTd : tdShapeOk (dget m "type_data") = true)
    (hMon : isListVal (dget (tdOf m) "monitors") = false) :
    resolve_group_monitors lookup m =
      .ok (dset m "type_data" (.dict (dset (tdOf m) "monitors" (.list [])))) := by
  unfold resolve_group_monitors
  rw [hG]
  cases h : dget m "type_data" with
  | none =>
    simp only [tdOf, h] at hMon ⊢
    cases h2 : dget ([] : DictM) "monitors" with
    | none => simp [resolveChildren]
    | some v => cases h2
  | some v =>
    cases v with
    | dict td =>
      simp only [tdOf, h] at hMon ⊢
      simp only [Option.getD_some]
      cases h2 : dget td "monitors" with
      | none => simp [h2, resolveChildren]
      | some w =>
        cases w <;> simp_all [isListVal, resolveChildren]
    | str s => rw [h] at hTd; cases hTd
    | int n => rw [h] at hTd; cases hTd
    | bool b => rw [h] at hTd; cases hTd
    | null => rw [h] at hTd; cases hTd
    | list xs => rw [h] at hTd; cases hTd

/-- C6 witness: a concrete GROUP monitor whose `type_data.monitors` is the
string `oops` resolves without error to an empty resolved list. -/
theorem resolve_group_empty_or_nonlist_children_witness :
    resolve_group_monitors lookupNone rawGroupBadChildren =
      .ok (dset rawGroupBadChildren "type_data"
        (.dict (dset (tdOf rawGroupBadChildren) "monitors" (.list [])))) :=
  resolve_group_empty_or_nonlist_children lookupNone rawGroupBadChildren rfl rfl rfl

/-- C7: the loader fails on a missing path and on a non-directory path; on a
directory it succeeds with exactly the regular files matching the
two-digits-hyphen-suffix-`.yml` pattern, sorted lexicographically by
filename; and an empty match set is a successful empty result. -/
theorem loader_contract :
    exceptOk (load_yaml_files_from_folder .missing) = false
    ∧ exceptOk (load_yaml_files_from_folder .notDir) = false
    ∧ (∀ es : List DirEntry, ∃ out : List String,
        load_yaml_files_from_folder (.dir es) = .ok out
        ∧ out.Perm ((es.filter dirEntryGood).map DirEntry.name)
        ∧ out.Sorted (· ≤ ·))
    ∧ (∀ es : List DirEntry, es.all (fun e => !dirEntryGood e) = true →
        load_yaml_files_from_folder (.dir es) = .ok []) := by
  refine ⟨rfl, rfl, ?_, ?_⟩
  · intro es
    refine ⟨_, rfl, List.mergeSort_perm _ _, ?_⟩
    exact List.sorted_mergeSort' _
  · intro es h
    have hfil : es.filter dirEntryGood = [] := by
      rw [List.filter_eq_nil_iff]
      intro e he
      have := List.all_eq_true.mp h e he
      simpa using this
    simp [load_yaml_files_from_folder, hfil]

/-- C7 witness: a directory containing only `readme.txt` and `extra.yaml`
(wrong extension) loads as a successful empty result. -/
theorem loader_contract_witness :
    load_yaml_files_from_folder (.dir [⟨"readme.txt", true⟩, ⟨"extra.yaml", true⟩])
      = .ok [] :=
  loader_contract.2.2.2 _ (by decide)

/-- C10: with an empty tag, the existence check returns false and the
fetch-by-tag returns no monitor, and neither issues a remote request,
whatever reply the network would have produced. -/
theorem empty_tag_no_request :
    ∀ r : RemoteReply,
      monitor_exists "" r = (false, false)
      ∧ get_monitor_by_tag "" r = (none, false) := by
  intro r
  exact ⟨rfl, rfl⟩

/-- C8: every failure mode of a remote call (network failure, non-200 status,
malformed JSON body) makes the existence check answer false, and a network
failure or non-201 status makes the creation a logged non-created outcome;
in a concrete batch of three monitors whose second creation receives a 500
reply, all three are still submitted and the run completes with outcomes
created, failed, created. -/
theorem remote_failures_are_negative_and_isolated :
    (∀ tag : String, (monitor_exists tag .netFail).1 = false)
    ∧ (∀ (tag : String) (s : Nat) (b : Option Val), s ≠ 200 →
        (monitor_exists tag (.reply s b)).1 = false)
    ∧ (∀ tag : String, (monitor_exists tag (.reply 200 none)).1 = false)
    ∧ create_monitor_outcome .netFail = false
    ∧ (∀ (s : Nat) (b : Option Val), s ≠ 201 →
        create_monitor_outcome (.reply s b) = false)
    ∧ ((cliApplyScripted [replyNotFound, replyNotFound, replyNotFound]
          [reply201, reply500, reply201]
          [mkMon "a" "A", mkMon "b" "B", mkMon "c" "C"]).state.submitted
        = [mkMon "a" "A", mkMon "b" "B", mkMon "c" "C"]
      ∧ (cliApplyScripted [replyNotFound, replyNotFound, replyNotFound]
          [reply201, reply500, reply201]
          [mkMon "a" "A", mkMon "b" "B", mkMon "c" "C"]).state.outcomes
        = [true, false, true]) := by
  refine ⟨?_, ?_, ?_, rfl, ?_, rfl, rfl⟩
  · intro tag
    by_cases h : tag = "" <;> simp [monitor_exists, h]
  · intro tag s b hs
    by_cases h : tag = "" <;> simp [monitor_exists, h, hs]
  · intro tag
    by_cases h : tag = "" <;> simp [monitor_exists, h]
  · intro s b hs
    simp [create_monitor_outcome, hs]

/-- C8 witness: a concrete 500 reply yields a negative existence answer and a
non-created outcome. -/
theorem remote_failures_are_negative_and_isolated_witness :
    (monitor_exists "a" (.reply 500 none)).1 = false
    ∧ create_monitor_outcome (.reply 500 none) = false := by
  have h := remote_failures_are_negative_and_isolated
  exact ⟨h.2.1 "a" 500 none (by decide), h.2.2.2.2.1 500 none (by decide)⟩

/-- C9 counterexample: a local definition with `name`, `monitor_type` and
`tag` but no `id` key fails to decode with a `KeyError` on `id`, because
`monitor_from_dict` subscripts `data["id"]` unconditionally. -/
theorem missing_id_fails_decoding :
    monitor_from_dict rawNoId = .error (.keyError "id") := rfl

/-- C9 amended: decoding a raw mapping into a `Monitor` succeeds only when
`id`, `name` and `monitor_type` are all present and `monitor_type`, `status`
and `default_status` (the latter two defaulted to `NONE` when absent) lie in
their closed enumerated sets; in particular a missing `id` key fails the
decoding even for a local definition. -/
theorem decode_requires_id_name_and_valid_enums :
    ∀ (d : DictM) (m : Monitor), monitor_from_dict d = .ok m →
      (dget d "id").isSome = true
      ∧ (dget d "name").isSome = true
      ∧ monitorTypeFieldOk d = true
      ∧ statusFieldOk d = true
      ∧ defaultStatusFieldOk d = true := by
  intro d m h
  unfold monitor_from_dict at h
  cases h1 : dget d "id" with
  | none => rw [h1] at h; cases h
  | some idv =>
    rw [h1] at h
    dsimp only at h
    cases h2 : dget d "name" with
    | none => rw [h2] at h; cases h
    | some namev =>
      rw [h2] at h
      dsimp only at h
      cases h3 : dget d "monitor_type" with
      | none => rw [h3] at h; cases h
      | some mtv =>
        rw [h3] at h
        dsimp only at h
        cases h4 : MonitorType.ofVal mtv with
        | error e => rw [h4] at h; cases h
        | ok mt =>
          rw [h4] at h
          cases h5 : MonitorStatus.ofVal "status"
              ((dget d "status").getD (.str "NONE")) with
          | error e => rw [h5] at h; cases h
          | ok st =>
            rw [h5] at h
            cases h6 : MonitorStatus.ofVal "default_status"
                ((dget d "default_status").getD (.str "NONE")) with
            | error e => rw [h6] at h; cases h
            | ok dst =>
              refine ⟨by simp [h1], by simp [h2], ?_, ?_, ?_⟩
              · simp [monitorTypeFieldOk, h3, h4, exceptOk]
              · simp [statusFieldOk, h5, exceptOk]
              · simp [defaultStatusFieldOk, h6, exceptOk]

/-- C9 amended witness: a concrete local definition carrying an `id` decodes,
and the amended theorem reports its required keys present and its enum fields
valid. -/
theorem decode_requires_id_name_and_valid_enums_witness :
    (dget rawOk "id").isSome = true
    ∧ (dget rawOk "name").isSome = true
    ∧ monitorTypeFieldOk rawOk = true
    ∧ statusFieldOk rawOk = true
    ∧ defaultStatusFieldOk rawOk = true := by
  obtain ⟨m, hm⟩ : ∃ m, monitor_from_dict rawOk = .ok m := ⟨_, rfl⟩
  exact decode_requires_id_name_and_valid_enums rawOk m hm

/-- Membership in a tag set is preserved by adding an element. -/
theorem vContains_cons_of {seen : List Val} {t : Val} (v : Val)
    (h : vContains seen t = true) : vContains (v :: seen) t = true := by
  simp [vContains, List.any_cons] at h ⊢
  exact Or.inr h

/-- A tag set contains a freshly added tag. -/
theorem vContains_cons_self (seen : List Val) (t : Val) :
    vContains (t :: seen) t = true := by
  simp [vContains, List.any_cons, Val.beq_refl]

/-- Processing monitors with the ideal remote collaborator only grows the
remote tag set. -/
theorem cliApplyIdeal_state_mono :
    ∀ (ms : List Monitor) (R : List Val) (seen : List Val) (i : Nat) (t : Val),
      vContains R t = true →
      vContains (cliApplyGo exIdeal crIdeal R seen i ms).state t = true := by
  intro ms
  induction ms with
  | nil => intro R seen i t h; exact h
  | cons m rest ih =>
    intro R seen i t h
    simp only [cliApplyGo]
    by_cases h1 : isFalsy m.tag
    · simp only [h1, if_true]; exact ih R seen (i + 1) t h
    · simp only [h1]
      by_cases h2 : vContains seen m.tag
      · simp only [h2, if_true, if_false]; exact ih R seen (i + 1) t h
      · simp only [h2]
        by_cases h3 : validate_monitor m
        · simp only [h3, Bool.not_true, if_false]
          simp only [exIdeal]
          by_cases h4 : vContains R m.tag
          · simp only [h4, if_true]; exact ih R _ (i + 1) t h
          · simp only [h4, if_false, crIdeal]
            exact ih (m.tag :: R) _ (i + 1) t (vContains_cons_of _ h)
        · simp only [h3, Bool.not_false, if_true, if_false]
          exact ih R _ (i + 1) t h

/-- Replaying a run from any remote tag set that already contains the final
tag set of a first run creates nothing and leaves the remote set unchanged. -/
theorem cliApplyIdeal_replay :
    ∀ (ms : List Monitor) (R seen : List Val) (i : Nat) (R2 : List Val),
      (∀ t, vContains (cliApplyGo exIdeal crIdeal R seen i ms).state t = true →
        vContains R2 t = true) →
      (cliApplyGo exIdeal crIdeal R2 seen i ms).state = R2 := by
  intro ms
  induction ms with
  | nil => intro R seen i R2 hsub; rfl
  | cons m rest ih =>
    intro R seen i R2 hsub
    by_cases h1 : isFalsy m.tag
    · simp only [cliApplyGo, h1, if_true] at hsub ⊢
      exact ih R seen (i + 1) R2 hsub
    · by_cases h2 : vContains seen m.tag
      · simp only [cliApplyGo, h1, h2, if_true, if_false] at hsub ⊢
        exact ih R seen (i + 1) R2 hsub
      · by_cases h3 : validate_monitor m
        · by_cases h4 : vContains R m.tag
          · have hr2 : vContains R2 m.tag = true := by
              apply hsub
              simp only [cliApplyGo, h1, h2, h3, h4, exIdeal, Bool.not_true,
                if_true, if_false]
              exact cliApplyIdeal_state_mono rest R _ (i + 1) m.tag h4
            simp only [cliApplyGo, h1, h2, h3, h4, hr2, exIdeal, Bool.not_true,
              if_true, if_false] at hsub ⊢
            exact ih R _ (i + 1) R2 hsub
          · have hr2 : vContains R2 m.tag = true := by
              apply hsub
              simp only [cliApplyGo, h1, h2, h3, h4, exIdeal, crIdeal,
                Bool.not_true, if_true, if_false]
              exact cliApplyIdeal_state_mono rest (m.tag :: R) _ (i + 1) m.tag
                (vContains_cons_self R m.tag)
            simp only [cliApplyGo, h1, h2, h3, h4, hr2, exIdeal, crIdeal,
              Bool.not_true, if_true, if_false] at hsub ⊢
            exact ih (m.tag :: R) _ (i + 1) R2 hsub
        · simp only [cliApplyGo, h1, h2, h3, Bool.not_false, if_true,
            if_false] at hsub ⊢
          exact ih R _ (i + 1) R2 hsub

/-- C1: running cli.py apply twice over the same monitor list against the
same well-behaved remote yields the same remote tag set as one run: every tag
the remote reports as existing is skipped before creation, so the second run
creates nothing. -/
theorem apply_twice_creates_nothing_new (R : List Val) (ms : List Monitor) :
    (cliApplyIdeal (cliApplyIdeal R ms).state ms).state = (cliApplyIdeal R ms).state := by
  unfold cliApplyIdeal
  exact cliApplyIdeal_replay ms R [] 0 _ (fun t ht => ht)

/-- Step equation: a monitor with a falsy tag or an already-seen tag is
skipped. -/
theorem cliApplyGo_skip {σ : Type} (ex : σ → Val → Bool × σ)
    (cr : σ → Monitor → σ) (s : σ) (seen : List Val) (i : Nat)
    (m : Monitor) (rest : List Monitor)
    (h : isFalsy m.tag = true ∨ vContains seen m.tag = true) :
    cliApplyGo ex cr s seen i (m :: rest) = cliApplyGo ex cr s seen (i + 1) rest := by
  rcases h with h | h
  · simp [cliApplyGo, h]
  · simp [cliApplyGo, h]

/-- Step equation: a fresh-tagged but invalid monitor is skipped after its
tag is recorded as seen. -/
theorem cliApplyGo_invalid {σ : Type} (ex : σ → Val → Bool × σ)
    (cr : σ → Monitor → σ) (s : σ) (seen : List Val) (i : Nat)
    (m : Monitor) (rest : List Monitor)
    (h1 : isFalsy m.tag = false) (h2 : vContains seen m.tag = false)
    (h3 : validate_monitor m = false) :
    cliApplyGo ex cr s seen i (m :: rest) =
      cliApplyGo ex cr s (m.tag :: seen) (i + 1) rest := by
  simp [cliApplyGo, h1, h2, h3]

/-- Step equation: a fresh-tagged valid monitor whose tag the remote reports
as existing is skipped after its tag is recorded as seen. -/
theorem cliApplyGo_exists {σ : Type} (ex : σ → Val → Bool × σ)
    (cr : σ → Monitor → σ) (s : σ) (seen : List Val) (i : Nat)
    (m : Monitor) (rest : List Monitor)
    (h1 : isFalsy m.tag = false) (h2 : vContains seen m.tag = false)
    (h3 : validate_monitor m = true) (h4 : (ex s m.tag).1 = true) :
    cliApplyGo ex cr s seen i (m :: rest) =
      cliApplyGo ex cr (ex s m.tag).2 (m.tag :: seen) (i + 1) rest := by
  simp [cliApplyGo, h1, h2, h3, h4]

/-- Step equation: a fresh-tagged valid monitor whose tag the remote does not
report as existing is submitted for creation. -/
theorem cliApplyGo_create {σ : Type} (ex : σ → Val → Bool × σ)
    (cr : σ → Monitor → σ) (s : σ) (seen : List Val) (i : Nat)
    (m : Monitor) (rest : List Monitor)
    (h1 : isFalsy m.tag = false) (h2 : vContains seen m.tag = false)
    (h3 : validate_monitor m = true) (h4 : (ex s m.tag).1 = false) :
    cliApplyGo ex cr s seen i (m :: rest) =
      ⟨(cliApplyGo ex cr (cr (ex s m.tag).2 m) (m.tag :: seen) (i + 1) rest).state,
       (cliApplyGo ex cr (cr (ex s m.tag).2 m) (m.tag :: seen) (i + 1) rest).seen,
       (i, m) ::
         (cliApplyGo ex cr (cr (ex s m.tag).2 m) (m.tag :: seen) (i + 1) rest).creations⟩ := by
  simp [cliApplyGo, h1, h2, h3, h4]

/-- A run over an appended list is the run over the first part followed by
the run over the second, with the position counter advanced. -/
theorem cliApplyGo_append {σ : Type} (ex : σ → Val → Bool × σ) (cr : σ → Monitor → σ) :
    ∀ (xs ys : List Monitor) (s : σ) (seen : List Val) (i : Nat),
      cliApplyGo ex cr s seen i (xs ++ ys) =
        ⟨(cliApplyGo ex cr (cliApplyGo ex cr s seen i xs).state
            (cliApplyGo ex cr s seen i xs).seen (i + xs.length) ys).state,
         (cliApplyGo ex cr (cliApplyGo ex cr s seen i xs).state
            (cliApplyGo ex cr s seen i xs).seen (i + xs.length) ys).seen,
         (cliApplyGo ex cr s seen i xs).creations ++
           (cliApplyGo ex cr (cliApplyGo ex cr s seen i xs).state
              (cliApplyGo ex cr s seen i xs).seen (i + xs.length) ys).creations⟩ := by
  intro xs
  induction xs with
  | nil => intro ys s seen i; simp [cliApplyGo]
  | cons m rest ih =>
    intro ys s seen i
    have hidx : i + (m :: rest).length = (i + 1) + rest.length := by
      simp [List.length_cons]; omega
    simp only [List.cons_append]
    cases h1 : isFalsy m.tag with
    | true =>
      rw [cliApplyGo_skip ex cr s seen i m (rest ++ ys) (Or.inl h1),
        cliApplyGo_skip ex cr s seen i m rest (Or.inl h1), hidx]
      exact ih ys s seen (i + 1)
    | false =>
      cases h2 : vContains seen m.tag with
      | true =>
        rw [cliApplyGo_skip ex cr s seen i m (rest ++ ys) (Or.inr h2),
          cliApplyGo_skip ex cr s seen i m rest (Or.inr h2), hidx]
        exact ih ys s seen (i + 1)
      | false =>
        cases h3 : validate_monitor m with
        | false =>
          rw [cliApplyGo_invalid ex cr s seen i m (rest ++ ys) h1 h2 h3,
            cliApplyGo_invalid ex cr s seen i m rest h1 h2 h3, hidx]
          exact ih ys s (m.tag :: seen) (i + 1)
        | true =>
          cases h4 : (ex s m.tag).1 with
          | true =>
            rw [cliApplyGo_exists ex cr s seen i m (rest ++ ys) h1 h2 h3 h4,
              cliApplyGo_exists ex cr s seen i m rest h1 h2 h3 h4, hidx]
            exact ih ys (ex s m.tag).2 (m.tag :: seen) (i + 1)
          | false =>
            rw [cliApplyGo_create ex cr s seen i m (rest ++ ys) h1 h2 h3 h4,
              cliApplyGo_create ex cr s seen i m rest h1 h2 h3 h4, hidx,
              ih ys (cr (ex s m.tag).2 m) (m.tag :: seen) (i + 1)]
            simp

/-- Every creation of a run is at a position between the start counter and
the end of the processed list. -/
theorem cliApplyGo_creation_indices {σ : Type} (ex : σ → Val → Bool × σ)
    (cr : σ → Monitor → σ) :
    ∀ (ms : List Monitor) (s : σ) (seen : List Val) (i : Nat) (c : Nat × Monitor),
      c ∈ (cliApplyGo ex cr s seen i ms).creations → i ≤ c.1 ∧ c.1 < i + ms.length := by
  intro ms
  induction ms with
  | nil => intro s seen i c hc; simp [cliApplyGo] at hc
  | cons m rest ih =>
    intro s seen i c hc
    have hlen : i + (m :: rest).length = (i + 1) + rest.length := by
      simp [List.length_cons]; omega
    rw [hlen]
    cases h1 : isFalsy m.tag with
    | true =>
      rw [cliApplyGo_skip ex cr s seen i m rest (Or.inl h1)] at hc
      have := ih s seen (i + 1) c hc
      omega
    | false =>
      cases h2 : vContains seen m.tag with
      | true =>
        rw [cliApplyGo_skip ex cr s seen i m rest (Or.inr h2)] at hc
        have := ih s seen (i + 1) c hc
        omega
      | false =>
        cases h3 : validate_monitor m with
        | false =>
          rw [cliApplyGo_invalid ex cr s seen i m rest h1 h2 h3] at hc
          have := ih s (m.tag :: seen) (i + 1) c hc
          omega
        | true =>
          cases h4 : (ex s m.tag).1 with
          | true =>
            rw [cliApplyGo_exists ex cr s seen i m rest h1 h2 h3 h4] at hc
            have := ih (ex s m.tag).2 (m.tag :: seen) (i + 1) c hc
            omega
          | false =>
            rw [cliApplyGo_create ex cr s seen i m rest h1 h2 h3 h4] at hc
            simp only [List.mem_cons] at hc
            rcases hc with rfl | hc
            · simp; omega
            · have := ih (cr (ex s m.tag).2 m) (m.tag :: seen) (i + 1) c hc
              omega

/-- The seen-tag set of a run keeps everything it started with. -/
theorem cliApplyGo_seen_mono {σ : Type} (ex : σ → Val → Bool × σ)
    (cr : σ → Monitor → σ) :
    ∀ (ms : List Monitor) (s : σ) (seen : List Val) (i : Nat) (t : Val),
      vContains seen t = true →
      vContains (cliApplyGo ex cr s seen i ms).seen t = true := by
  intro ms
  induction ms with
  | nil => intro s seen i t h; exact h
  | cons m rest ih =>
    intro s seen i t h
    cases h1 : isFalsy m.tag with
    | true =>
      rw [cliApplyGo_skip ex cr s seen i m rest (Or.inl h1)]
      exact ih s seen (i + 1) t h
    | false =>
      cases h2 : vContains seen m.tag with
      | true =>
        rw [cliApplyGo_skip ex cr s seen i m rest (Or.inr h2)]
        exact ih s seen (i + 1) t h
      | false =>
        cases h3 : validate_monitor m with
        | false =>
          rw [cliApplyGo_invalid ex cr s seen i m rest h1 h2 h3]
          exact ih s _ (i + 1) t (vContains_cons_of _ h)
        | true =>
          cases h4 : (ex s m.tag).1 with
          | true =>
            rw [cliApplyGo_exists ex cr s seen i m rest h1 h2 h3 h4]
            exact ih _ _ (i + 1) t (vContains_cons_of _ h)
          | false =>
            rw [cliApplyGo_create ex cr s seen i m rest h1 h2 h3 h4]
            exact ih _ _ (i + 1) t (vContains_cons_of _ h)

/-- After a run that processed a monitor with a truthy tag, that tag is in
the seen-tag set: the tag is recorded before validation and before any
remote call. -/
theorem cliApplyGo_seen_of_mem {σ : Type} (ex : σ → Val → Bool × σ)
    (cr : σ → Monitor → σ) :
    ∀ (ms : List Monitor) (s : σ) (seen : List Val) (i : Nat) (t : Val),
      (∃ m, m ∈ ms ∧ m.tag = t) → isFalsy t = false →
      vContains (cliApplyGo ex cr s seen i ms).seen t = true := by
  intro ms
  induction ms with
  | nil => intro s seen i t hm hf; rcases hm with ⟨m, hm, _⟩; cases hm
  | cons m0 rest ih =>
    intro s seen i t hm hf
    rcases hm with ⟨m, hmem, htag⟩
    rcases List.mem_cons.mp hmem with hm0 | hrest
    · subst hm0
      subst htag
      cases h2 : vContains seen m.tag with
      | true =>
        rw [cliApplyGo_skip ex cr s seen i m rest (Or.inr h2)]
        exact cliApplyGo_seen_mono ex cr rest s seen (i + 1) m.tag h2
      | false =>
        have hself := vContains_cons_self seen m.tag
        cases h3 : validate_monitor m with
        | false =>
          rw [cliApplyGo_invalid ex cr s seen i m rest hf h2 h3]
          exact cliApplyGo_seen_mono ex cr rest _ _ (i + 1) m.tag hself
        | true =>
          cases h4 : (ex s m.tag).1 with
          | true =>
            rw [cliApplyGo_exists ex cr s seen i m rest hf h2 h3 h4]
            exact cliApplyGo_seen_mono ex cr rest _ _ (i + 1) m.tag hself
          | false =>
            rw [cliApplyGo_create ex cr s seen i m rest hf h2 h3 h4]
            exact cliApplyGo_seen_mono ex cr rest _ _ (i + 1) m.tag hself
    · have hrec : ∃ m2, m2 ∈ rest ∧ m2.tag = t := ⟨m, hrest, htag⟩
      cases h1 : isFalsy m0.tag with
      | true =>
        rw [cliApplyGo_skip ex cr s seen i m0 rest (Or.inl h1)]
        exact ih s seen (i + 1) t hrec hf
      | false =>
        cases h2 : vContains seen m0.tag with
        | true =>
          rw [cliApplyGo_skip ex cr s seen i m0 rest (Or.inr h2)]
          exact ih s seen (i + 1) t hrec hf
        | false =>
          cases h3 : validate_monitor m0 with
          | false =>
            rw [cliApplyGo_invalid ex cr s seen i m0 rest h1 h2 h3]
            exact ih s _ (i + 1) t hrec hf
          | true =>
            cases h4 : (ex s m0.tag).1 with
            | true =>
              rw [cliApplyGo_exists ex cr s seen i m0 rest h1 h2 h3 h4]
              exact ih _ _ (i + 1) t hrec hf
            | false =>
              rw [cliApplyGo_create ex cr s seen i m0 rest h1 h2 h3 h4]
              exact ih _ _ (i + 1) t hrec hf

/-- C2: in a cli.py apply run over a batch in which a later monitor carries
the same tag as an earlier one, the later monitor is never submitted for
creation: no creation happens at its position. -/
theorem later_duplicate_tag_never_submitted (R : List Val)
    (pre : List Monitor) (m1 : Monitor) (mid : List Monitor) (m2 : Monitor)
    (post : List Monitor) (hTag : m1.tag = m2.tag) :
    (pre.length + mid.length + 1) ∉
      ((cliApplyIdeal R (pre ++ m1 :: (mid ++ m2 :: post))).creations.map Prod.fst) := by
  intro hmem
  have hsplit : pre ++ m1 :: (mid ++ m2 :: post) = (pre ++ m1 :: mid) ++ (m2 :: post) := by
    simp
  rw [cliApplyIdeal, hsplit, cliApplyGo_append] at hmem
  have hxlen : (pre ++ m1 :: mid).length = pre.length + mid.length + 1 := by
    simp [List.length_append, List.length_cons]
    omega
  simp only [List.map_append, List.mem_append] at hmem
  rcases hmem with hmem | hmem
  · rcases List.mem_map.mp hmem with ⟨c, hc, hcfst⟩
    have hb := cliApplyGo_creation_indices exIdeal crIdeal (pre ++ m1 :: mid)
      R [] 0 c hc
    omega
  · cases hf : isFalsy m2.tag with
    | true =>
      rw [cliApplyGo_skip exIdeal crIdeal _ _ _ m2 post (Or.inl hf)] at hmem
      rcases List.mem_map.mp hmem with ⟨c, hc, hcfst⟩
      have hb := cliApplyGo_creation_indices exIdeal crIdeal post _ _ _ c hc
      omega
    | false =>
      have hseen :
          vContains (cliApplyGo exIdeal crIdeal R [] 0 (pre ++ m1 :: mid)).seen
            m2.tag = true := by
        apply cliApplyGo_seen_of_mem
        · exact ⟨m1, by simp, hTag⟩
        · exact hf
      rw [cliApplyGo_skip exIdeal crIdeal _ _ _ m2 post (Or.inr hseen)] at hmem
      rcases List.mem_map.mp hmem with ⟨c, hc, hcfst⟩
      have hb := cliApplyGo_creation_indices exIdeal crIdeal post _ _ _ c hc
      omega

/-- C2 witness: with two concrete monitors sharing the tag `t`, no creation
happens at the position of the second. -/
theorem later_duplicate_tag_never_submitted_witness :
    (1 : Nat) ∉
      ((cliApplyIdeal [] [mkMon "t" "X", mkMon "t" "Y"]).creations.map Prod.fst) := by
  have h := later_duplicate_tag_never_submitted [] [] (mkMon "t" "X") []
    (mkMon "t" "Y") [] rfl
  simpa using h

/-- C3 counterexample: the cli.py driver submits monitors for creation
directly after the validate, duplicate and remote-existence checks, without
group resolution or defaulting. The concrete monitor below is submitted with
its `cron` still the empty string, although the defaulting engine maps that
monitor to one with `cron` set to the documented default, so the submitted
monitor cannot have passed through the defaulting engine. -/
theorem cli_submits_undefaulted_monitor :
    ((cliApplyIdeal [] [mkMon "t" "n"]).creations.map (fun c => c.2.cron))
        = [Val.str ""]
    ∧ (apply_monitor_defaults_mon "2025-01-01T00:00:00.000Z" (mkMon "t" "n")).cron
        = Val.str "* * * * *" :=
  ⟨rfl, rfl⟩

/-- C3 amended: in the main.py driver, every monitor that is submitted for
creation is first passed through group resolution and then through the
defaulting engine, in that order: whenever a monitor is not skipped by the
tag-and-exists check and its group resolution succeeds with `r`, the payload
submitted to the creation collaborator and recorded by the run is exactly
`apply_monitor_defaults now r`. The main.py per-monitor sequence has no
validate step and no in-run duplicate check; those appear only in the cli.py
revision, which in turn submits without resolution or defaulting. -/
theorem main_apply_resolves_then_defaults_before_create {σ : Type}
    (lookup : Val → Option DictM) (now : String)
    (ex : σ → Val → Bool × σ) (cr : σ → DictM → σ) (s : σ)
    (m : DictM) (rest : List DictM) (r : DictM)
    (hskip : (if isFalsy ((dget m "tag").getD .null) then (false, s)
              else ex s ((dget m "tag").getD .null)).1 = false)
    (hres : resolve_group_monitors_main lookup m = .ok r) :
    mainApplyGo lookup now ex cr s (m :: rest) =
      match mainApplyGo lookup now ex cr
          (cr (if isFalsy ((dget m "tag").getD .null) then (false, s)
               else ex s ((dget m "tag").getD .null)).2
            (apply_monitor_defaults now r)) rest with
      | .error e => .error e
      | .ok (s2, ps) => .ok (s2, apply_monitor_defaults now r :: ps) := by
  simp only [mainApplyGo, hskip, hres, Bool.false_eq_true, if_false]

/-- C3 amended witness: a concrete non-GROUP monitor, not existing remotely,
is submitted as exactly its defaulted resolution result. -/
theorem main_apply_resolves_then_defaults_before_create_witness :
    mainApplyGo lookupNone "2025-01-01T00:00:00.000Z" exUnit crUnit () [rawApiMonitor]
      = .ok ((), [apply_monitor_defaults "2025-01-01T00:00:00.000Z" rawApiMonitor]) := by
  have h := main_apply_resolves_then_defaults_before_create lookupNone
    "2025-01-01T00:00:00.000Z" exUnit crUnit () rawApiMonitor [] rawApiMonitor
    rfl rfl
  exact h
